import Mathlib

/-!
# Verification of the ROI-config gateway and weekly updater

A shallow embedding of the two Python source files of this repository:

* `roi_config_mcp/roi_config_mcp.py` — the MCP "Config Gateway" exposing the
  tools `roi_config_read`, `roi_config_research`, `roi_config_apply` and
  `roi_config_status` over one JSON configuration file;
* `scripts/weekly_update.py` — the one-shot "Batch Updater".

JSON documents are modelled by the inductive type `Json`; the file system is a
record holding the raw text of the single config file plus the list of backup
snapshots.  Python-level failures (`FileNotFoundError`, `json.JSONDecodeError`,
`AttributeError`, `TypeError`, `KeyError`, `IndexError`, `ValueError`) are
modelled by the `PyErr` type, and every operation that can raise is embedded in
the `Except PyErr` monad; a caught exception corresponds to matching on the
`.error` case, an uncaught one to returning it.

External effects that are out of the program's control are abstracted as
parameters: the current timestamp(s) are passed in as pre-formatted strings,
and the Anthropic API call of the weekly script is replaced by the response
text it would produce (the script's own handling of that text is embedded
faithfully).  Modelling simplifications, each noted at its definition:
`str()`/`repr()` rendering of strings does not escape special characters, the
truncated SHA-256 file fingerprint is replaced by a simple polynomial hash
(no claim depends on its value), floats print in plain decimal (no scientific
notation), and the non-standard `NaN`/`Infinity` JSON literals are not parsed.
-/

/-- A JSON value as produced by Python's `json.loads`.  Python distinguishes
`int` from `float`; a float is kept exactly as `mantissa × 10 ^ exponent`
(decimal, normalised so the mantissa is not divisible by 10), which is exact
for every literal the program ever manipulates.  Objects are ordered key/value
lists, matching CPython's insertion-ordered `dict`. -/
inductive Json where
  | null
  | bool (b : Bool)
  | int (n : Int)
  | float (mantissa : Int) (exponent : Int)
  | str (s : String)
  | arr (elements : List Json)
  | obj (fields : List (String × Json))

/-- The Python exceptions the embedded code can raise. -/
inductive PyErr where
  | fileNotFound
  | jsonDecodeError
  | attributeError
  | typeError
  | keyError
  | indexError
  | valueError
deriving DecidableEq

mutual

/-- Python `==` between the values the program compares (always against a
string constant, where Python equality agrees with this structural test). -/
def Json.beq : Json → Json → Bool
  | .null, .null => true
  | .bool a, .bool b => a == b
  | .int a, .int b => a == b
  | .float m e, .float m' e' => m == m' && e == e'
  | .str a, .str b => a == b
  | .arr xs, .arr ys => Json.beqList xs ys
  | .obj fs, .obj gs => Json.beqFields fs gs
  | _, _ => false

/-- Elementwise `Json.beq` on lists. -/
def Json.beqList : List Json → List Json → Bool
  | x :: xs, y :: ys => Json.beq x y && Json.beqList xs ys
  | xs, ys => xs.isEmpty && ys.isEmpty

/-- Pairwise `Json.beq` on ordered field lists. -/
def Json.beqFields : List (String × Json) → List (String × Json) → Bool
  | (k, v) :: fs, (l, w) :: gs => k == l && Json.beq v w && Json.beqFields fs gs
  | fs, gs => fs.isEmpty && gs.isEmpty

end

/-- Python truthiness (`bool(x)`) of a JSON value: `None`, `False`, zero,
empty string, empty list and empty dict are falsy, everything else truthy. -/
def Json.truthy : Json → Bool
  | .null => false
  | .bool b => b
  | .int n => n != 0
  | .float m _ => m != 0
  | .str s => s != ""
  | .arr xs => !xs.isEmpty
  | .obj fs => !fs.isEmpty

/-- First-match lookup in an ordered field list (CPython `dict` lookup). -/
def jsonLookup : List (String × Json) → String → Option Json
  | [], _ => none
  | (k, v) :: rest, key => if k = key then some v else jsonLookup rest key

/-- `dict.get(key, default)` on a field list. -/
def jsonLookupD (fields : List (String × Json)) (key : String) (dflt : Json) : Json :=
  (jsonLookup fields key).getD dflt

/-- CPython `d[key] = v`: replace in place when the key exists (keeping its
position), append otherwise. -/
def setField : List (String × Json) → String → Json → List (String × Json)
  | [], key, v => [(key, v)]
  | (k, w) :: rest, key, v =>
    if k = key then (k, v) :: rest else (k, w) :: setField rest key v

/-- Pure lookup helper for stating frame properties: the value stored at `key`
when `j` is an object, `none` otherwise. -/
def jsonGet (j : Json) (key : String) : Option Json :=
  match j with
  | .obj fs => jsonLookup fs key
  | _ => none

/-- Total item-assignment helper: updates the field when `j` is an object and
leaves anything else unchanged (the effectful wrapper `pySet` raises on
non-objects before this is ever applied to them). -/
def objSet (j : Json) (key : String) (v : Json) : Json :=
  match j with
  | .obj fs => .obj (setField fs key v)
  | _ => j

/-- `d.get(key, default)` as the program runs it: `AttributeError` unless the
receiver is a dict. -/
def pyGetD (j : Json) (key : String) (dflt : Json) : Except PyErr Json :=
  match j with
  | .obj fs => .ok (jsonLookupD fs key dflt)
  | _ => .error .attributeError

/-- `d[key] = v`: `TypeError` unless the receiver is a dict. -/
def pySet (j : Json) (key : String) (v : Json) : Except PyErr Json :=
  match j with
  | .obj _ => .ok (objSet j key v)
  | _ => .error .typeError

/-- `d[key]` (string subscript): value or `KeyError` on a dict, `TypeError`
on anything else. -/
def pyIndex (j : Json) (key : String) : Except PyErr Json :=
  match j with
  | .obj fs =>
    match jsonLookup fs key with
    | some v => .ok v
    | none => .error .keyError
  | _ => .error .typeError

/-- `d.items()`: the ordered field list of a dict, `AttributeError` otherwise. -/
def asObjItems (j : Json) : Except PyErr (List (String × Json)) :=
  match j with
  | .obj fs => .ok fs
  | _ => .error .attributeError

/-- A string method receiver (`.split` and friends): `AttributeError` unless
the value is a `str`. -/
def asStr (j : Json) : Except PyErr String :=
  match j with
  | .str s => .ok s
  | _ => .error .attributeError

/-- `len(x)` for the sized values the program can meet; `TypeError` on the
rest.  (Objects built by the parser never hold duplicate keys, so the raw
field count is the `dict` length.) -/
def pyLen (j : Json) : Except PyErr Nat :=
  match j with
  | .obj fs => .ok fs.length
  | .arr xs => .ok xs.length
  | .str s => .ok s.length
  | _ => .error .typeError

/-- Does the pattern occur at the head of the input? -/
def listStartsWith : List Char → List Char → Bool
  | p :: ps, c :: cs => p == c && listStartsWith ps cs
  | pat, _ => pat.isEmpty

/-- Leftmost non-overlapping split on a non-empty separator, keeping empty
parts, accumulating the current part in reverse; the fuel is any bound on the
input length plus one. -/
def splitCharsAux (sep : List Char) : Nat → List Char → List Char → List (List Char)
  | _, acc, [] => [acc.reverse]
  | 0, acc, cs => [acc.reverse ++ cs]
  | fuel + 1, acc, c :: cs =>
    if listStartsWith sep (c :: cs) then
      acc.reverse :: splitCharsAux sep fuel [] ((c :: cs).drop sep.length)
    else
      splitCharsAux sep fuel (c :: acc) cs

/-- Python `str.split(sep)` for a non-empty separator (the program only ever
splits on `"."` and the fenced-code delimiters): leftmost, non-overlapping,
empty parts kept. -/
def pySplit (s sep : String) : List String :=
  (splitCharsAux sep.toList (s.toList.length + 1) [] s.toList).map (fun l => String.mk l)

/-- The characters Python's `str.strip()` removes: space and the five ASCII
control whitespace characters (tab through carriage return). -/
def pyWsChar (c : Char) : Bool :=
  c.toNat == 32 || (9 ≤ c.toNat && c.toNat ≤ 13)

/-- Python `s.strip()`. -/
def pyStrip (s : String) : String :=
  String.mk (((s.toList.dropWhile pyWsChar).reverse.dropWhile pyWsChar).reverse)

/-- Python `s[:n]` (also the `int()` length bounds): the first `n` characters. -/
def strTake (s : String) (n : Nat) : String :=
  String.mk (s.toList.take n)

/-- The characters of `s` from position `n` on. -/
def strDrop (s : String) (n : Nat) : String :=
  String.mk (s.toList.drop n)

/-- Python `sub in s` on strings: `str.split` yields more than one part
exactly when the (non-empty) pattern occurs. -/
def strContainsSubstr (s pat : String) : Bool :=
  (pySplit s pat).length != 1

/-- The opening-brace character, kept out of literals. -/
def braceOpen : Char := Char.ofNat 123

/-- The closing-brace character, kept out of literals. -/
def braceClose : Char := Char.ofNat 125

/-- `key in container` as Python evaluates it: key membership for a dict,
element equality for a list, substring search for a string, `TypeError` for
the non-iterable scalars. -/
def pyContains (container : Json) (key : String) : Except PyErr Bool :=
  match container with
  | .obj fs => .ok (fs.any (fun f => f.1 == key))
  | .arr xs => .ok (xs.any (fun x => Json.beq x (.str key)))
  | .str s => .ok (strContainsSubstr s key)
  | _ => .error .typeError

/-- Value of a plain decimal digit run, most significant first. -/
def digitsVal (cs : List Char) : Nat :=
  cs.foldl (fun a c => a * 10 + (c.toNat - 48)) 0

/-- Drop a factor of ten from the mantissa while it stays an integer; the
first argument is fuel (any bound on the number of strippable zeros). -/
def stripTens : Nat → Int → Int → Int × Int
  | 0, m, e => (m, e)
  | fuel + 1, m, e =>
    if m ≠ 0 ∧ m % 10 = 0 then stripTens fuel (m / 10) (e + 1) else (m, e)

/-- Normalise a decimal float `m × 10 ^ e` so equal values share one
representation (mantissa not divisible by ten; zero is `(0, 0)`). -/
def normFloat (m e : Int) : Int × Int :=
  if m = 0 then (0, 0) else stripTens m.natAbs m e

/-- Python's rendering of a float in plain positional decimal.  (CPython
switches to scientific notation for very large or small magnitudes; the
program never renders such values, so that mode is not modelled.) -/
def floatRepr (m e : Int) : String :=
  let sign := if m < 0 then "-" else ""
  let ds := toString m.natAbs
  if 0 ≤ e then sign ++ ds ++ String.mk (List.replicate e.toNat '0') ++ ".0"
  else
    let k := (-e).toNat
    if k < ds.length then
      sign ++ strTake ds (ds.length - k) ++ "." ++ strDrop ds (ds.length - k)
    else
      sign ++ "0." ++ String.mk (List.replicate (k - ds.length) '0') ++ ds

mutual

/-- Python `repr()` of a parsed JSON value, as used inside containers by
`str()`.  Simplification: characters inside a string are not escaped and the
quote is always a single quote; no claim inspects rendered strings containing
quotes or control characters. -/
def pyRepr : Json → String
  | .null => "None"
  | .bool true => "True"
  | .bool false => "False"
  | .int n => toString n
  | .float m e => floatRepr m e
  | .str s => "'" ++ s ++ "'"
  | .arr xs => "[" ++ pyReprList xs ++ "]"
  | .obj fs => String.singleton braceOpen ++ pyReprFields fs ++ String.singleton braceClose

/-- Comma-separated `repr()`s of list elements. -/
def pyReprList : List Json → String
  | [] => ""
  | [x] => pyRepr x
  | x :: y :: ys => pyRepr x ++ ", " ++ pyReprList (y :: ys)

/-- Comma-separated `'key': repr(value)` pairs of a dict. -/
def pyReprFields : List (String × Json) → String
  | [] => ""
  | [(k, v)] => "'" ++ k ++ "': " ++ pyRepr v
  | (k, v) :: g :: gs => "'" ++ k ++ "': " ++ pyRepr v ++ ", " ++ pyReprFields (g :: gs)

end

/-- Python `str()` of a parsed JSON value (what an f-string interpolates):
a string renders as its bare text, everything else as its `repr()`. -/
def pyStr : Json → String
  | .str s => s
  | j => pyRepr j

/-- Python `int(s)` on a string: surrounding whitespace is stripped, then an
optional sign followed by one or more decimal digits; anything else raises
`ValueError`.  (Underscore separators and non-ASCII digits, which CPython
also accepts, are not modelled; the program never feeds them in.) -/
def pyInt (s : String) : Except PyErr Int :=
  let cs := (pyStrip s).toList
  match cs with
  | '-' :: rest =>
    if !rest.isEmpty && rest.all Char.isDigit then .ok (-(digitsVal rest : Int))
    else .error .valueError
  | '+' :: rest =>
    if !rest.isEmpty && rest.all Char.isDigit then .ok (digitsVal rest : Int)
    else .error .valueError
  | _ =>
    if !cs.isEmpty && cs.all Char.isDigit then .ok (digitsVal cs : Int)
    else .error .valueError

/-- `int(parts[i])`: `IndexError` past the end, else `int()` on the part. -/
def pyIntAt (parts : List String) (i : Nat) : Except PyErr Int :=
  match parts[i]? with
  | some p => pyInt p
  | none => .error .indexError

/-! ### `json.loads` — a recursive-descent parser for the JSON grammar

Strict like CPython's: only `"`-quoted strings, no leading zeros, no trailing
commas, whitespace is space/tab/newline/return.  Not modelled: the
non-standard `NaN`/`Infinity` literals and surrogate-pair combining in `\u`
escapes (no claim feeds either in). -/

/-- JSON whitespace: space, tab, line feed, carriage return. -/
def jsonWs (c : Char) : Bool :=
  c.toNat == 32 || c.toNat == 9 || c.toNat == 10 || c.toNat == 13

/-- Skip leading JSON whitespace. -/
def dropWs : List Char → List Char
  | c :: rest => if jsonWs c then dropWs rest else c :: rest
  | [] => []

/-- Value of a hexadecimal digit, by code point. -/
def hexDigitVal (c : Char) : Option Nat :=
  let n := c.toNat
  if 48 ≤ n && n ≤ 57 then some (n - 48)
  else if 97 ≤ n && n ≤ 102 then some (n - 87)
  else if 65 ≤ n && n ≤ 70 then some (n - 55)
  else none

/-- Value of a four-digit hexadecimal escape. -/
def hexQuadVal (a b c d : Char) : Option Nat := do
  let va ← hexDigitVal a
  let vb ← hexDigitVal b
  let vc ← hexDigitVal c
  let vd ← hexDigitVal d
  pure (((va * 16 + vb) * 16 + vc) * 16 + vd)

/-- The single-character escape table of the JSON grammar: each escape letter
paired with the character it denotes. -/
def escapeTable : List (Char × Char) :=
  [('"', '"'), ('\\', '\\'), ('/', '/'), ('n', '\n'), ('t', '\t'), ('r', '\r'),
   ('b', Char.ofNat 8), ('f', Char.ofNat 12)]

/-- Decode a single-character escape through `escapeTable`. -/
def unescapeChar (c : Char) : Option Char :=
  (escapeTable.find? (fun p => p.1 == c)).map (fun p => p.2)

/-- Parse the remainder of a JSON string after its opening quote, returning
the decoded characters and the input after the closing quote.  Unescaped
control characters are rejected, as CPython does in strict mode. -/
def parseStringRest : List Char → Option (List Char × List Char)
  | '"' :: rest => some ([], rest)
  | '\\' :: esc :: rest =>
    if esc == 'u' then
      match rest with
      | a :: b :: c :: d :: rest2 => do
        let n ← hexQuadVal a b c d
        let (s, r) ← parseStringRest rest2
        pure (Char.ofNat n :: s, r)
      | _ => none
    else do
      let ch ← unescapeChar esc
      let (s, r) ← parseStringRest rest
      pure (ch :: s, r)
  | c :: rest =>
    if c.toNat < 32 then none
    else do
      let (s, r) ← parseStringRest rest
      pure (c :: s, r)
  | [] => none

/-- Parse a JSON number at the head of the input.  Integer literals become
Python `int`s, any literal with a fraction or exponent becomes a float. -/
def parseNumber (cs : List Char) : Option (Json × List Char) :=
  let neg := listStartsWith ("-".toList) cs
  let cs1 := if neg then cs.drop 1 else cs
  let ids := cs1.takeWhile Char.isDigit
  let cs2 := cs1.dropWhile Char.isDigit
  if ids.isEmpty then none
  else if 1 < ids.length && ids.headD 'x' == '0' then none
  else
    let (fds, cs3, hasFrac) : List Char × List Char × Bool :=
      match cs2 with
      | '.' :: r => (r.takeWhile Char.isDigit, r.dropWhile Char.isDigit, true)
      | _ => ([], cs2, false)
    if hasFrac && fds.isEmpty then none
    else
      let (expVal, cs4, hasExp) : Option Int × List Char × Bool :=
        match cs3 with
        | 'e' :: r | 'E' :: r =>
          let (esgn, r1) : Int × List Char :=
            match r with
            | '+' :: r2 => (1, r2)
            | '-' :: r2 => (-1, r2)
            | _ => (1, r)
          let eds := r1.takeWhile Char.isDigit
          if eds.isEmpty then (none, cs3, true)
          else (some (esgn * (digitsVal eds : Int)), r1.dropWhile Char.isDigit, true)
        | _ => (some 0, cs3, false)
      match expVal with
      | none => none
      | some ex =>
        let sgn : Int := if neg then -1 else 1
        if hasFrac || hasExp then
          let nf := normFloat (sgn * (digitsVal (ids ++ fds) : Int)) (ex - fds.length)
          some (.float nf.1 nf.2, cs4)
        else
          some (.int (sgn * (digitsVal ids : Int)), cs4)

mutual

/-- Parse one JSON value (fuelled; `jsonLoads` supplies ample fuel). -/
def parseJsonValue : Nat → List Char → Option (Json × List Char)
  | 0, _ => none
  | fuel + 1, cs =>
    let cs2 := dropWs cs
    if listStartsWith ("null".toList) cs2 then some (.null, cs2.drop 4)
    else if listStartsWith ("true".toList) cs2 then some (.bool true, cs2.drop 4)
    else if listStartsWith ("false".toList) cs2 then some (.bool false, cs2.drop 5)
    else
    match cs2 with
    | '"' :: r => do
      let (content, r2) ← parseStringRest r
      pure (.str (String.mk content), r2)
    | '[' :: r =>
      match dropWs r with
      | ']' :: r2 => some (.arr [], r2)
      | r2 => do
        let (xs, r3) ← parseJsonItems fuel r2
        pure (.arr xs, r3)
    | c :: r =>
      if c == braceOpen then
        match dropWs r with
        | c2 :: r2 =>
          if c2 == braceClose then some (.obj [], r2)
          else do
            let (fs, r3) ← parseJsonFields fuel (c2 :: r2)
            pure (.obj (fs.foldl (fun acc f => setField acc f.1 f.2) []), r3)
        | [] => none
      else parseNumber (c :: r)
    | [] => none

/-- Parse the comma-separated elements of a non-empty array, through `]`. -/
def parseJsonItems : Nat → List Char → Option (List Json × List Char)
  | 0, _ => none
  | fuel + 1, cs => do
    let (v, r) ← parseJsonValue fuel cs
    match dropWs r with
    | ',' :: r2 => do
      let (vs, r3) ← parseJsonItems fuel r2
      pure (v :: vs, r3)
    | ']' :: r2 => pure ([v], r2)
    | _ => none

/-- Parse the members of a non-empty object, through the closing brace,
in source order (`jsonLoads` then folds them last-value-wins, as CPython's
repeated `dict` assignment does). -/
def parseJsonFields : Nat → List Char → Option (List (String × Json) × List Char)
  | 0, _ => none
  | fuel + 1, cs =>
    match dropWs cs with
    | '"' :: r => do
      let (kcs, r2) ← parseStringRest r
      match dropWs r2 with
      | ':' :: r3 => do
        let (v, r4) ← parseJsonValue fuel r3
        match dropWs r4 with
        | ',' :: r5 => do
          let (fs, r6) ← parseJsonFields fuel r5
          pure ((String.mk kcs, v) :: fs, r6)
        | c :: r5 =>
          if c == braceClose then pure ([(String.mk kcs, v)], r5) else none
        | [] => none
      | _ => none
    | _ => none

end

/-- `json.loads(s)`: parse one value and require only whitespace after it;
`none` models `json.JSONDecodeError`. -/
def jsonLoads (s : String) : Option Json :=
  let cs := s.toList
  match parseJsonValue (2 * cs.length + 2) cs with
  | some (v, r) => if (dropWs r).isEmpty then some v else none
  | none => none

/-! ### `json.dump(..., indent=2)` — the serializer used on every write -/

/-- Lowercase hexadecimal digit. -/
def hexDigitChar (n : Nat) : Char :=
  if n < 10 then Char.ofNat (48 + n) else Char.ofNat (97 + n - 10)

/-- Four-digit lowercase hexadecimal rendering. -/
def hexQuad (n : Nat) : String :=
  String.mk [hexDigitChar (n / 4096 % 16), hexDigitChar (n / 256 % 16),
             hexDigitChar (n / 16 % 16), hexDigitChar (n % 16)]

/-- One character of a dumped string: `ensure_ascii` escaping as CPython's
`json.dump` performs it (named escapes, `\uXXXX` for the rest of the
non-printable or non-ASCII range, surrogate pairs beyond the BMP). -/
def jsonEscapeChar (c : Char) : String :=
  if c == '"' then "\\\""
  else if c == '\\' then "\\\\"
  else if c == '\n' then "\\n"
  else if c == '\t' then "\\t"
  else if c == '\r' then "\\r"
  else if c == Char.ofNat 8 then "\\b"
  else if c == Char.ofNat 12 then "\\f"
  else if c.toNat < 32 || 127 ≤ c.toNat then
    if c.toNat < 65536 then "\\u" ++ hexQuad c.toNat
    else
      "\\u" ++ hexQuad (55296 + (c.toNat - 65536) / 1024) ++
      "\\u" ++ hexQuad (56320 + (c.toNat - 65536) % 1024)
  else String.singleton c

/-- A dumped (quoted, escaped) JSON string. -/
def jsonQuote (s : String) : String :=
  "\"" ++ String.join (s.toList.map jsonEscapeChar) ++ "\""

/-- Indentation at nesting level `lvl` for `indent=2`. -/
def indentStr (lvl : Nat) : String :=
  String.mk (List.replicate (2 * lvl) ' ')

mutual

/-- Serialize a value at nesting level `lvl`, `indent=2` style. -/
def jsonDumpsAt : Nat → Json → String
  | _, .null => "null"
  | _, .bool true => "true"
  | _, .bool false => "false"
  | _, .int n => toString n
  | _, .float m e => floatRepr m e
  | _, .str s => jsonQuote s
  | lvl, .arr xs =>
    if xs.isEmpty then "[]"
    else
      "[\n" ++ String.intercalate ",\n" (jsonDumpsItems (lvl + 1) xs) ++ "\n" ++
      indentStr lvl ++ "]"
  | lvl, .obj fs =>
    if fs.isEmpty then String.singleton braceOpen ++ String.singleton braceClose
    else
      String.singleton braceOpen ++ "\n" ++
      String.intercalate ",\n" (jsonDumpsFields (lvl + 1) fs) ++ "\n" ++
      indentStr lvl ++ String.singleton braceClose

/-- The elements of an array, each rendered on its own indented line. -/
def jsonDumpsItems : Nat → List Json → List String
  | _, [] => []
  | lvl, x :: xs => (indentStr lvl ++ jsonDumpsAt lvl x) :: jsonDumpsItems lvl xs

/-- The members of an object, each rendered on its own indented line. -/
def jsonDumpsFields : Nat → List (String × Json) → List String
  | _, [] => []
  | lvl, (k, v) :: fs =>
    (indentStr lvl ++ jsonQuote k ++ ": " ++ jsonDumpsAt lvl v) :: jsonDumpsFields lvl fs

end

/-- `json.dump(config, f, indent=2)`: the exact text written to the file. -/
def jsonDumps (j : Json) : String :=
  jsonDumpsAt 0 j

/-! ### The Config Gateway (`roi_config_mcp.py`) -/

/-- The resolved `ALLOWED_CONFIG_FILE` path.  The source applies
`os.path.expanduser` and honours a `ROI_CONFIG_PATH` environment override at
startup; the model fixes one resolved path, which only ever appears inside
result strings. -/
def ALLOWED_CONFIG_FILE : String :=
  "~/Library/Mobile Documents/com~apple~CloudDocs/Research/AI/Financial Modeling/Webapps/Claude/F5 DPU Calculator Package Rev 08/F5_DPU_ROI_Toolkit/Up-to-date ROI Calculator/roi-config Rev 08.json"

/-- The file system as the Gateway can observe it: the raw text of the one
allowed config file (`none` when the file does not exist) and the contents of
the backup copies written so far, in creation order. -/
structure FS where
  file : Option String
  backups : List String
deriving DecidableEq

/-- `_validate_file_access()`: does the allowed file exist? -/
def validateFileAccess (fs : FS) : Bool :=
  fs.file.isSome

/-- `_get_file_hash()`: empty string when the file is missing, else a short
fingerprint of the raw bytes.  The SHA-256 of the source is abstracted by a
simple content-determined hash; no claim depends on its value, only on its
being a function of the content. -/
def getFileHash (fs : FS) : String :=
  match fs.file with
  | none => ""
  | some raw =>
    strTake (toString (raw.toList.foldl (fun a c => (a * 131 + c.toNat) % 281474976710656) 7)) 12

/-- `_read_config()`: `FileNotFoundError` when the file is absent, a
`json.JSONDecodeError` when its text does not parse, the document otherwise. -/
def readConfig (fs : FS) : Except PyErr Json :=
  match fs.file with
  | none => .error .fileNotFound
  | some raw =>
    match jsonLoads raw with
    | some j => .ok j
    | none => .error .jsonDecodeError

/-- `_write_config(config, backup)`: check existence, copy the current raw
text verbatim to a timestamp-suffixed backup when `backup` is set, then
overwrite the file with the `indent=2` serialization.  `backupTs` is the
`%Y%m%d-%H%M%S` rendering of the wall clock at the call. -/
def writeConfig (config : Json) (backup : Bool) (fs : FS) (backupTs : String) :
    Except PyErr (String × FS) :=
  match fs.file with
  | none => .error .fileNotFound
  | some raw =>
    let backupPath := ALLOWED_CONFIG_FILE ++ ".backup-" ++ backupTs
    let fs1 : FS := if backup then { fs with backups := fs.backups ++ [raw] } else fs
    .ok ("Config saved. Backup: " ++ (if backup then backupPath else "None"),
         { fs1 with file := some (jsonDumps config) })

/-- `str()` of the modelled exceptions, for the `f"Error: {e}"` results.  The
exact message text is abbreviated; no claim inspects it. -/
def pyErrMsg : PyErr → String
  | .fileNotFound => "Config file not found: " ++ ALLOWED_CONFIG_FILE
  | .jsonDecodeError => "Expecting value"
  | .attributeError => "attribute error"
  | .typeError => "type error"
  | .keyError => "key error"
  | .indexError => "list index out of range"
  | .valueError => "invalid literal for int() with base 10"

/-- The `response_format` enum of `ReadConfigInput`. -/
inductive ResponseFormat where
  | markdown
  | json
deriving DecidableEq

/-- `ReadConfigInput` (pydantic): `section` is optional (`sectionOpt` here,
since `section` is a Lean keyword); whitespace stripping of the transport
layer is assumed already applied. -/
structure ReadConfigInput where
  sectionOpt : Option String
  response_format : ResponseFormat

/-- `UpdatePreviewInput` (pydantic); the transport default is `some "all"`. -/
structure UpdatePreviewInput where
  categories : Option String

/-- `ApplyUpdateInput` (pydantic); `updates_json` is the raw payload text. -/
structure ApplyUpdateInput where
  updates_json : String
  user_confirmed : Bool
  create_backup : Bool

/-- The `section_map` literal of `roi_config_read`. -/
def sectionMapLookup (s : String) : Option String :=
  if s = "gpuTypes" then some "gpuTypes"
  else if s = "hardware" then some "hardware"
  else if s = "models" then some "modelArchitectures"
  else if s = "storage" then some "storageOptions"
  else none

/-- The section-narrowing block of `roi_config_read` (lines 88-98): a falsy
selector keeps the whole document, `"metadata"` keeps exactly the
`version`/`lastUpdated` pair, a mapped name keeps that category (defaulting
to an empty dict), anything else is the literal unknown-section result
(`Sum.inl`). -/
def readData (config : Json) (sectionOpt : Option String) :
    Except PyErr (Sum String Json) :=
  match sectionOpt with
  | some s =>
    if s ≠ "" then
      if s = "metadata" then do
        let v ← pyGetD config ("version") Json.null
        let lu ← pyGetD config ("lastUpdated") Json.null
        pure (.inr (Json.obj [("version", v), ("lastUpdated", lu)]))
      else
        match sectionMapLookup s with
        | some key => do
          let d ← pyGetD config key (Json.obj [])
          pure (.inr d)
        | none => pure (.inl ("Error: Unknown section"))
    else pure (.inr config)
  | none => pure (.inr config)

/-- The body of `roi_config_read` inside its `try`. -/
def roiConfigReadBody (params : ReadConfigInput) (fs : FS) : Except PyErr String := do
  let config ← readConfig fs
  let fileHash := getFileHash fs
  let dataOrMsg ← readData config params.sectionOpt
  match dataOrMsg with
  | .inl msg => pure msg
  | .inr data =>
    match params.response_format with
    | .json =>
      pure (jsonDumps (Json.obj [("file_hash", Json.str fileHash), ("data", data)]))
    | .markdown => do
      let v ← pyGetD config ("version") Json.null
      pure ("# ROI Config\nVersion: " ++ pyStr v ++ "\n" ++ strTake (jsonDumps data) 3000)

/-- The `roi_config_read` tool: its `try`/`except` turns every raised
exception into an `Error:` string, so the tool itself never raises. -/
def roi_config_read (params : ReadConfigInput) (fs : FS) : Except PyErr String :=
  match roiConfigReadBody params fs with
  | .ok s => .ok s
  | .error e => .ok ("Error: " ++ pyErrMsg e)

/-- The `roi_config_research` tool.  It has no `try`/`except`: `_read_config`
and the `config.get` in the f-string raise straight through to the caller.
`today` is the `%Y-%m-%d` rendering of the wall clock. -/
def roi_config_research (params : UpdatePreviewInput) (fs : FS) (today : String) :
    Except PyErr String := do
  let config ← readConfig fs
  let v ← pyGetD config ("version") Json.null
  pure ("# Research Request\nVersion: " ++ pyStr v ++ "\nDate: " ++ today ++
    "\nCategories: " ++ (match params.categories with | some c => c | none => "None") ++
    "\n\nResearch needed:\n- GPU pricing (H100, H200, B200, B300)\n- New AI models (Llama, Mistral, DeepSeek)  \n- Storage pricing updates\n- NVLink configurations\n\nReturn JSON with version_increment, gpuTypes_updates, modelArchitectures_updates, notes.")

/-- The inline version bump of `roi_config_apply` (lines 135-142): split on
`"."`, take the first three parts as ints (IndexError/ValueError surface as
exceptions), bump minor-and-reset-patch when the increment kind equals
`"minor"`, else bump patch. -/
def gatewayBumpVersion (version : String) (kind : Json) : Except PyErr String := do
  let parts := pySplit version (".")
  let major ← pyIntAt parts 0
  let minor ← pyIntAt parts 1
  let patch ← pyIntAt parts 2
  if Json.beq kind (Json.str ("minor")) then
    pure (toString major ++ "." ++ toString (minor + 1) ++ ".0")
  else
    pure (toString major ++ "." ++ toString minor ++ "." ++ toString (patch + 1))

/-- Lines 132-143 of `roi_config_apply`: read `version` (default `"1.0.0"`),
and when the payload's `version_increment` is truthy, store the bumped
version and record the `Version: old -> new` change entry. -/
def applyVersionStep (updates config : Json) : Except PyErr (Json × List String) := do
  let oldVersion ← pyGetD config ("version") (Json.str ("1.0.0"))
  let vi ← pyGetD updates ("version_increment") Json.null
  if vi.truthy then do
    let ov ← asStr oldVersion
    let nv ← gatewayBumpVersion ov vi
    let c ← pySet config ("version") (Json.str nv)
    pure (c, ["Version: " ++ ov ++ " -> " ++ nv])
  else
    pure (config, [])

/-- One property assignment `config[catKey][gpu][prop] = value` of the
category loops, with its change entry (the in-place mutation of the nested
dict becomes the corresponding functional update). -/
def applyPropStep (catKey tag gpu : String) (st : Json × List String)
    (kv : String × Json) : Except PyErr (Json × List String) := do
  let catNow ← pyIndex st.1 catKey
  let inner ← pyIndex catNow gpu
  let newInner ← pySet inner kv.1 kv.2
  pure (objSet st.1 catKey (objSet catNow gpu newInner),
        st.2 ++ [tag ++ "." ++ gpu ++ "." ++ kv.1 ++ ": " ++ pyStr kv.2])

/-- One iteration of the per-category update loops of `roi_config_apply`
(lines 145-154): skip the entry unless its key is already present in the
document's `catKey` map; otherwise overwrite each listed property in place
and record a `tag.key.prop: value` change entry per property. -/
def applyCatEntry (catKey tag : String) (st : Json × List String) (gpu : String)
    (data : Json) : Except PyErr (Json × List String) := do
  let cat ← pyGetD st.1 catKey (Json.obj [])
  let present ← pyContains cat gpu
  if present then do
    let items ← asObjItems data
    items.foldlM (applyPropStep catKey tag gpu) st
  else
    pure st

/-- A whole `for key, data in updates.get(...).items()` category loop. -/
def applyCategoryUpdates (catKey tag : String) (updatesMap : Json)
    (st : Json × List String) : Except PyErr (Json × List String) := do
  let items ← asObjItems updatesMap
  items.foldlM (fun st2 kv => applyCatEntry catKey tag st2 kv.1 kv.2) st

/-- The document transformation of a confirmed apply (lines 132-154): version
bump, unconditional `lastUpdated` stamp, then the `gpuTypes_updates` and
`modelArchitectures_updates` loops, accumulating change entries in order. -/
def applyTransform (updates config : Json) (now : String) :
    Except PyErr (Json × List String) := do
  let vstep ← applyVersionStep updates config
  let c2 ← pySet vstep.1 ("lastUpdated") (Json.str now)
  let gpuMap ← pyGetD updates ("gpuTypes_updates") (Json.obj [])
  let st3 ← applyCategoryUpdates ("gpuTypes") ("gpuTypes") gpuMap (c2, vstep.2)
  let modelMap ← pyGetD updates ("modelArchitectures_updates") (Json.obj [])
  let st4 ← applyCategoryUpdates ("modelArchitectures") ("models") modelMap st3
  pure st4

/-- The body of `roi_config_apply` inside its `try`: parse the payload, read
the document, transform it, write it back (with optional backup), and build
the `# Update Applied` report listing up to the first 20 change entries. -/
def roiConfigApplyBody (params : ApplyUpdateInput) (fs : FS) (now backupTs : String) :
    Except PyErr (String × FS) := do
  let updates ←
    match jsonLoads params.updates_json with
    | some u => Except.ok u
    | none => Except.error PyErr.jsonDecodeError
  let config ← readConfig fs
  let st ← applyTransform updates config now
  let written ← writeConfig st.1 params.create_backup fs backupTs
  pure ("# Update Applied\nChanges: " ++ toString st.2.length ++ "\n" ++ written.1 ++ "\n" ++
        String.intercalate "\n" ((st.2.take 20).map (fun ch => "- " ++ ch)), written.2)

/-- The `roi_config_apply` tool: the confirmation gate returns its literal
error before anything else runs (file untouched, payload unparsed), and the
`try`/`except` around the body turns any raised exception into an `Error:`
string with the file untouched; the tool itself never raises. -/
def roi_config_apply (params : ApplyUpdateInput) (fs : FS) (now backupTs : String) :
    Except PyErr (String × FS) :=
  if !params.user_confirmed then .ok ("ERROR: Set user_confirmed=True to proceed", fs)
  else
    match roiConfigApplyBody params fs now backupTs with
    | .ok r => .ok r
    | .error e => .ok ("Error: " ++ pyErrMsg e, fs)

/-- The fixed skeleton of the status report. -/
def statusText (existsStr version gpus models : String) : String :=
  "# ROI Config MCP Status\nFile: " ++ ALLOWED_CONFIG_FILE ++ "\nExists: " ++ existsStr ++
  "\nVersion: " ++ version ++ "\nGPUs: " ++ gpus ++ "\nModels: " ++ models ++
  "\nSecurity: Single file access only, requires confirmation for writes"

/-- The `roi_config_status` tool.  It has no `try`/`except`: when the file
exists, `_read_config` (and the subsequent `get`/`len` calls) raise straight
through to the caller. -/
def roi_config_status (fs : FS) : Except PyErr String := do
  if fs.file.isSome then do
    let config ← readConfig fs
    let v ← pyGetD config ("version") Json.null
    let g ← pyGetD config ("gpuTypes") (Json.obj [])
    let gpus ← pyLen g
    let m ← pyGetD config ("modelArchitectures") (Json.obj [])
    let models ← pyLen m
    pure (statusText ("True") (pyStr v) (toString gpus) (toString models))
  else
    pure (statusText ("False") ("N/A") ("0") ("0"))

/-! ### The Batch Updater (`scripts/weekly_update.py`) -/

/-- The fixed relative config filename of the weekly script. -/
def CONFIG_FILE : String := "roi-config Rev 08.json"

/-- The file system as the weekly script observes it: just the config file's
raw text (no backups are ever taken on this path). -/
structure BatchFS where
  file : Option String
deriving DecidableEq

/-- Lines 49-54 of `get_claude_updates`: when the response text contains a
fenced `json` block, extract the text between the opening fence and the next
fence; strip whitespace; parse.  `none` is the caught `JSONDecodeError`. -/
def extract_response_json (responseText : String) : Option Json :=
  let jsonStr :=
    if strContainsSubstr responseText ("```json") then
      (pySplit ((pySplit responseText ("```json")).getD 1 "") ("```")).getD 0 ""
    else responseText
  jsonLoads (pyStrip jsonStr)

/-- `get_claude_updates(current_config)`: the prompt is built (its only
fallible part is the `.get` on the config, kept here), the Anthropic API call
is abstracted as the response text it produces, and the response is parsed
with `JSONDecodeError` caught and turned into `None`. -/
def get_claude_updates (current_config : Json) (responseText : String) :
    Except PyErr (Option Json) := do
  let _ ← pyGetD current_config ("version") (Json.str ("unknown"))
  pure (extract_response_json responseText)

/-- `increment_version(version, increment_type)` of the weekly script: only a
version that splits on `"."` into exactly three parts is bumped (minor bump
resets patch, anything else bumps patch); any other shape is returned
unchanged.  Receivers that are not strings raise at `.split`. -/
def increment_version (version : Json) (increment_type : Json) : Except PyErr String := do
  let v ← asStr version
  let parts := pySplit v (".")
  if parts.length = 3 then do
    let major ← pyIntAt parts 0
    let minor ← pyIntAt parts 1
    let patch ← pyIntAt parts 2
    if Json.beq increment_type (Json.str ("minor")) then
      pure (toString major ++ "." ++ toString (minor + 1) ++ ".0")
    else
      pure (toString major ++ "." ++ toString minor ++ "." ++ toString (patch + 1))
  else pure v

/-- `apply_updates(config, updates)`: falsy updates leave the config alone
(and unstamped); otherwise a truthy `version_increment` bumps the version and
sets `changes_made`, and `lastUpdated` is stamped unconditionally. -/
def apply_updates (config updates : Json) (now : String) : Except PyErr (Json × Bool) := do
  if !updates.truthy then pure (config, false)
  else do
    let vi ← pyGetD updates ("version_increment") Json.null
    let step ←
      if vi.truthy then do
        let ov ← pyGetD config ("version") (Json.str ("1.0.0"))
        let nv ← increment_version ov vi
        let c ← pySet config ("version") (Json.str nv)
        pure (c, true)
      else pure (config, false)
    let c2 ← pySet step.1 ("lastUpdated") (Json.str now)
    pure (c2, step.2)

/-- `main()` of the weekly script: missing file exits 1; a malformed file
raises out of `json.load` (uncaught — the process crashes); a falsy or
unparseable API response exits 1 without touching the file; otherwise the
updates are applied and the file is rewritten only when `changes_made`, and
the run exits 0.  The returned number is the process exit status. -/
def weekly_main (fs : BatchFS) (responseText : String) (now : String) :
    Except PyErr (Nat × BatchFS) := do
  match fs.file with
  | none => pure (1, fs)
  | some raw =>
    match jsonLoads raw with
    | none => Except.error PyErr.jsonDecodeError
    | some config => do
      let updates ← get_claude_updates config responseText
      match updates with
      | some upd =>
        if upd.truthy then do
          let applied ← apply_updates config upd now
          if applied.2 then pure (0, { file := some (jsonDumps applied.1) })
          else pure (0, fs)
        else pure (1, fs)
      | none => pure (1, fs)

/-! ### Helper lemmas: what a field update does and does not touch -/

/-- Updating `key` stores exactly `v` there. -/
theorem jsonLookup_setField_self (fs : List (String × Json)) (key : String) (v : Json) :
    jsonLookup (setField fs key v) key = some v := by
  induction fs with
  | nil => simp [setField, jsonLookup]
  | cons f rest ih =>
    obtain ⟨a, w⟩ := f
    by_cases ha : a = key
    · simp [setField, ha, jsonLookup]
    · simp [setField, ha, jsonLookup, ih]

/-- Updating `key` leaves every other key's binding unchanged. -/
theorem jsonLookup_setField_ne (fs : List (String × Json)) (key k : String) (v : Json)
    (h : k ≠ key) : jsonLookup (setField fs key v) k = jsonLookup fs k := by
  induction fs with
  | nil => simp [setField, jsonLookup, Ne.symm h]
  | cons f rest ih =>
    obtain ⟨a, w⟩ := f
    by_cases ha : a = key
    · subst ha
      simp [setField, jsonLookup, Ne.symm h]
    · simp [setField, ha, jsonLookup, ih]

/-- `objSet` at one key reads back unchanged at any other key. -/
theorem jsonGet_objSet_ne (j : Json) (key k : String) (v : Json) (h : k ≠ key) :
    jsonGet (objSet j key v) k = jsonGet j k := by
  cases j <;> simp [objSet, jsonGet, jsonLookup_setField_ne _ _ _ _ h]

/-- `objSet` on an object reads back the stored value at its key. -/
theorem jsonGet_objSet_self (fs : List (String × Json)) (key : String) (v : Json) :
    jsonGet (objSet (Json.obj fs) key v) key = some v := by
  simp [objSet, jsonGet, jsonLookup_setField_self]

/-! ### The claims -/

/-- C1: for every update payload and backup flag, `roi_config_apply` with the
confirmation flag false returns the literal confirmation-required error and
leaves the file system (file contents and backups) untouched; the payload is
never parsed (the result does not depend on it). -/
theorem C1_unconfirmed_apply_rejected
    (params : ApplyUpdateInput) (fs : FS) (now backupTs : String)
    (h : params.user_confirmed = false) :
    roi_config_apply params fs now backupTs =
      .ok ("ERROR: Set user_confirmed=True to proceed", fs) := by
  simp [roi_config_apply, h]

/-- Witness for C1 at a malformed payload and a missing file. -/
theorem C1_unconfirmed_apply_rejected_witness :
    roi_config_apply
        { updates_json := "this is not json", user_confirmed := false, create_backup := true }
        { file := none, backups := [] } ("T") ("B") =
      .ok ("ERROR: Set user_confirmed=True to proceed", { file := none, backups := [] }) :=
  C1_unconfirmed_apply_rejected _ _ _ _ rfl

/-- C3: a `gpuTypes_updates` entry whose key is not present in the document's
`gpuTypes` map is silently skipped — the document comes back unchanged (so no
key is inserted) and no change entry is recorded. -/
theorem C3_absent_gpu_key_skipped
    (cf : List (String × Json)) (chs : List String) (g : String) (data : Json)
    (catf : List (String × Json))
    (hcat : jsonLookupD cf ("gpuTypes") (Json.obj []) = Json.obj catf)
    (habs : catf.any (fun f => f.1 == g) = false) :
    applyCatEntry ("gpuTypes") ("gpuTypes") (Json.obj cf, chs) g data =
      .ok (Json.obj cf, chs) := by
  simp [applyCatEntry, pyGetD, hcat, pyContains, habs, Bind.bind, Except.bind, pure, Except.pure]

/-- Witness for C3: a two-GPU document and an update for an absent key. -/
theorem C3_absent_gpu_key_skipped_witness :
    applyCatEntry ("gpuTypes") ("gpuTypes")
        (Json.obj [("version", Json.str ("1.4.9")),
                   ("gpuTypes", Json.obj [("H100", Json.obj [("price", Json.int 30000)])])],
         [])
        ("B300") (Json.obj [("price", Json.int 1)]) =
      .ok (Json.obj [("version", Json.str ("1.4.9")),
                     ("gpuTypes", Json.obj [("H100", Json.obj [("price", Json.int 30000)])])],
           []) :=
  C3_absent_gpu_key_skipped _ _ _ _ _ rfl rfl

/-- C7: `roi_config_read` with section `"metadata"` narrows every document to
exactly the two-field object `{version, lastUpdated}` drawn from it (absent
fields become `None`, as `dict.get` yields); in particular the claim's
example document narrows to exactly its version/lastUpdated pair. -/
theorem C7_metadata_read_is_exactly_version_and_lastUpdated :
    (∀ cf : List (String × Json),
      readData (Json.obj cf) (some ("metadata")) =
        .ok (.inr (Json.obj [("version", jsonLookupD cf ("version") Json.null),
                             ("lastUpdated", jsonLookupD cf ("lastUpdated") Json.null)]))) ∧
    readData (Json.obj [("version", Json.str ("2.1.0")),
                        ("lastUpdated", Json.str ("2024-01-01T00:00:00Z")),
                        ("gpuTypes", Json.obj [("H100", Json.obj [("price", Json.int 30000)])])])
        (some ("metadata")) =
      .ok (.inr (Json.obj [("version", Json.str ("2.1.0")),
                           ("lastUpdated", Json.str ("2024-01-01T00:00:00Z"))])) := by
  constructor
  · intro cf
    simp [readData, pyGetD, Bind.bind, Except.bind, pure, Except.pure]
  · rfl

/-- C9 counterexample: on the four-part version `"1.2.3.4"` with increment
kind `"patch"`, the Gateway's bump keeps the first three parts and yields
`"1.2.4"`, while the Batch Updater's `increment_version` returns the version
unchanged — the two rules disagree, refuting the for-every-version claim. -/
theorem C9_counterexample :
    gatewayBumpVersion ("1.2.3.4") (Json.str ("patch")) ≠
      increment_version (Json.str ("1.2.3.4")) (Json.str ("patch")) := by
  intro h
  rw [show gatewayBumpVersion ("1.2.3.4") (Json.str ("patch")) = Except.ok ("1.2.4") from rfl,
      show increment_version (Json.str ("1.2.3.4")) (Json.str ("patch")) =
        Except.ok ("1.2.3.4") from rfl] at h
  exact absurd (Except.ok.inj h) (by decide)

/-- C9 (amended): the Gateway's version bump and the Batch Updater's
`increment_version` agree (same result, same raised exceptions) on every
version string that splits on `"."` into exactly three parts — in particular
on every version satisfying the documented invariant — for every increment
kind.  They can differ only on versions with a part count other than three. -/
theorem C9_amended_bump_rules_agree_on_three_part_versions
    (v : String) (kind : Json) (h3 : (pySplit v (".")).length = 3) :
    gatewayBumpVersion v kind = increment_version (Json.str v) kind := by
  simp [gatewayBumpVersion, increment_version, asStr, h3, Bind.bind, Except.bind, pure,
        Except.pure]

/-- Witness for the amended C9 at `"1.4.9"` with kind `"minor"`. -/
theorem C9_amended_witness :
    (pySplit ("1.4.9") (".")).length = 3 ∧
    gatewayBumpVersion ("1.4.9") (Json.str ("minor")) =
      increment_version (Json.str ("1.4.9")) (Json.str ("minor")) :=
  ⟨rfl, C9_amended_bump_rules_agree_on_three_part_versions _ _ rfl⟩

/-- C2: on any document whose `version` is three dot-joined non-negative
integers, a payload with a truthy `version_increment` makes the apply
operation's version step store the spec's bump — minor-and-reset-patch when
the kind equals `"minor"`, patch otherwise — and record exactly the
`Version: old -> new` change entry. -/
theorem C2_version_increment_rule
    (uf cf : List (String × Json)) (kind : Json) (v p1 p2 p3 nv : String)
    (n1 n2 n3 : Int)
    (hki : jsonLookupD uf ("version_increment") Json.null = kind)
    (hkt : kind.truthy = true)
    (hv : jsonLookupD cf ("version") (Json.str ("1.0.0")) = Json.str v)
    (hsplit : pySplit v (".") = [p1, p2, p3])
    (h1 : pyInt p1 = .ok n1) (h2 : pyInt p2 = .ok n2) (h3 : pyInt p3 = .ok n3)
    (_hn1 : 0 ≤ n1) (_hn2 : 0 ≤ n2) (_hn3 : 0 ≤ n3)
    (hnv : nv = if Json.beq kind (Json.str ("minor")) then
             toString n1 ++ "." ++ toString (n2 + 1) ++ ".0"
           else toString n1 ++ "." ++ toString n2 ++ "." ++ toString (n3 + 1)) :
    applyVersionStep (Json.obj uf) (Json.obj cf) =
      .ok (objSet (Json.obj cf) ("version") (Json.str nv),
           ["Version: " ++ v ++ " -> " ++ nv]) := by
  subst hnv
  by_cases hb : Json.beq kind (Json.str ("minor")) = true
  · simp [applyVersionStep, pyGetD, hki, hkt, hv, asStr, gatewayBumpVersion, hsplit,
          pyIntAt, h1, h2, h3, pySet, hb, Bind.bind, Except.bind, pure, Except.pure]
  · simp [applyVersionStep, pyGetD, hki, hkt, hv, asStr, gatewayBumpVersion, hsplit,
          pyIntAt, h1, h2, h3, pySet, hb, Bind.bind, Except.bind, pure, Except.pure]

/-- Witness for C2: the claim's two instances, `"1.4.9"` bumped with
`"minor"` to `"1.5.0"` and with `"patch"` to `"1.4.10"`. -/
theorem C2_version_increment_rule_witness :
    applyVersionStep (Json.obj [("version_increment", Json.str ("minor"))])
        (Json.obj [("version", Json.str ("1.4.9"))]) =
      .ok (Json.obj [("version", Json.str ("1.5.0"))], ["Version: 1.4.9 -> 1.5.0"]) ∧
    applyVersionStep (Json.obj [("version_increment", Json.str ("patch"))])
        (Json.obj [("version", Json.str ("1.4.9"))]) =
      .ok (Json.obj [("version", Json.str ("1.4.10"))], ["Version: 1.4.9 -> 1.4.10"]) :=
  ⟨C2_version_increment_rule [("version_increment", Json.str ("minor"))]
      [("version", Json.str ("1.4.9"))] (Json.str ("minor")) ("1.4.9") ("1") ("4") ("9")
      ("1.5.0") 1 4 9 rfl rfl rfl rfl rfl rfl rfl (by decide) (by decide) (by decide) rfl,
   C2_version_increment_rule [("version_increment", Json.str ("patch"))]
      [("version", Json.str ("1.4.9"))] (Json.str ("patch")) ("1.4.9") ("1") ("4") ("9")
      ("1.4.10") 1 4 9 rfl rfl rfl rfl rfl rfl rfl (by decide) (by decide) (by decide) rfl⟩

/-- C5 counterexample: `roi_config_research` has no `try`/`except`, so on a
missing config file the tool propagates `FileNotFoundError` to its caller —
refuting the claim that every Gateway operation catches every exception. -/
theorem C5_counterexample :
    roi_config_research { categories := some ("all") } { file := none, backups := [] }
        ("2026-01-01") = .error .fileNotFound := rfl

/-- C5 (amended): only `roi_config_read` and `roi_config_apply` catch all
exceptions and always return a textual result; `roi_config_research`
propagates an exception whenever the file is missing, and
`roi_config_status` whenever the file exists but does not parse. -/
theorem C5_amended_only_read_and_apply_catch_all :
    (∀ (params : ReadConfigInput) (fs : FS), ∃ s, roi_config_read params fs = .ok s) ∧
    (∀ (params : ApplyUpdateInput) (fs : FS) (now backupTs : String),
      ∃ r, roi_config_apply params fs now backupTs = .ok r) ∧
    (∀ (params : UpdatePreviewInput) (bs : List String) (today : String),
      roi_config_research params { file := none, backups := bs } today =
        .error .fileNotFound) ∧
    (∀ (raw : String) (bs : List String), jsonLoads raw = none →
      roi_config_status { file := some raw, backups := bs } = .error .jsonDecodeError) := by
  refine ⟨fun params fs => ?_, fun params fs now backupTs => ?_,
          fun params bs today => rfl, fun raw bs h => ?_⟩
  · unfold roi_config_read
    cases roiConfigReadBody params fs with
    | ok s => exact ⟨s, rfl⟩
    | error e => exact ⟨_, rfl⟩
  · cases hc : params.user_confirmed with
    | false =>
      exact ⟨("ERROR: Set user_confirmed=True to proceed", fs), by simp [roi_config_apply, hc]⟩
    | true =>
      cases hbody : roiConfigApplyBody params fs now backupTs with
      | ok r => exact ⟨r, by simp [roi_config_apply, hc, hbody]⟩
      | error e => exact ⟨("Error: " ++ pyErrMsg e, fs), by simp [roi_config_apply, hc, hbody]⟩
  · simp [roi_config_status, readConfig, h, Bind.bind, Except.bind]

/-- Witness for the amended C5 at concrete inputs for all four parts. -/
theorem C5_amended_witness :
    (∃ s, roi_config_read { sectionOpt := none, response_format := ResponseFormat.markdown }
        { file := none, backups := [] } = .ok s) ∧
    (∃ r, roi_config_apply
        { updates_json := "\x7b\x7d", user_confirmed := true, create_backup := true }
        { file := none, backups := [] } ("T") ("B") = .ok r) ∧
    roi_config_research { categories := none } { file := none, backups := [] } ("D") =
      .error .fileNotFound ∧
    jsonLoads ("not json") = none ∧
    roi_config_status { file := some ("not json"), backups := [] } = .error .jsonDecodeError :=
  ⟨C5_amended_only_read_and_apply_catch_all.1 _ _,
   C5_amended_only_read_and_apply_catch_all.2.1 _ _ _ _,
   C5_amended_only_read_and_apply_catch_all.2.2.1 _ _ _,
   rfl,
   C5_amended_only_read_and_apply_catch_all.2.2.2 _ _ rfl⟩

/-- C8: whenever the config file parses but the API response does not parse
as JSON (after fence stripping), the weekly run returns exit status 1 and the
file text is byte-for-byte unchanged. -/
theorem C8_unparseable_response_fails_without_writing
    (raw : String) (cf : List (String × Json)) (resp now : String)
    (hfile : jsonLoads raw = some (Json.obj cf))
    (hparse : extract_response_json resp = none) :
    weekly_main { file := some raw } resp now = .ok (1, { file := some raw }) := by
  simp [weekly_main, hfile, get_claude_updates, pyGetD, hparse, Bind.bind, Except.bind,
        pure, Except.pure]

/-- Witness for C8: a garbage response against a one-field document. -/
theorem C8_unparseable_response_fails_without_writing_witness :
    jsonLoads ("\x7b\"version\": \"1.0.0\"\x7d") =
      some (Json.obj [("version", Json.str ("1.0.0"))]) ∧
    extract_response_json ("garbage") = none ∧
    weekly_main { file := some ("\x7b\"version\": \"1.0.0\"\x7d") } ("garbage") ("NOW") =
      .ok (1, { file := some ("\x7b\"version\": \"1.0.0\"\x7d") }) :=
  ⟨rfl, rfl,
   C8_unparseable_response_fails_without_writing _ [("version", Json.str ("1.0.0"))] _ _ rfl rfl⟩

/-- C6 counterexample: the response `"{}"` parses as a JSON object, yet the
run treats the empty (falsy) object as a failed update — it exits with
status 1 and writes nothing, against the claimed bump-stamp-write-exit-0. -/
theorem C6_counterexample :
    extract_response_json (String.singleton braceOpen ++ String.singleton braceClose) =
      some (Json.obj []) ∧
    weekly_main { file := some ("\x7b\"version\": \"1.0.0\"\x7d") }
        (String.singleton braceOpen ++ String.singleton braceClose) ("NOW") =
      .ok (1, { file := some ("\x7b\"version\": \"1.0.0\"\x7d") }) :=
  ⟨rfl, rfl⟩

/-- C6 (amended): when the API response parses as a JSON object that is
non-empty and whose `version_increment` is truthy (and the document's version
admits `increment_version`), the weekly run bumps the version with that rule,
stamps `lastUpdated`, writes the updated document back with no backup and no
confirmation gate, and exits 0.  (A parsed empty object is instead treated as
a failure and exits 1; a non-empty object without a truthy
`version_increment` exits 0 but writes nothing.) -/
theorem C6_amended_truthy_increment_writes_and_exits_0
    (raw resp now v nv : String) (cf uf : List (String × Json)) (kind : Json)
    (hfile : jsonLoads raw = some (Json.obj cf))
    (hresp : extract_response_json resp = some (Json.obj uf))
    (htruthy : (Json.obj uf).truthy = true)
    (hkind : jsonLookupD uf ("version_increment") Json.null = kind)
    (hkt : kind.truthy = true)
    (hv : jsonLookupD cf ("version") (Json.str ("1.0.0")) = Json.str v)
    (hinc : increment_version (Json.str v) kind = .ok nv) :
    weekly_main { file := some raw } resp now =
      .ok (0, { file := some (jsonDumps (objSet (objSet (Json.obj cf) ("version")
                  (Json.str nv)) ("lastUpdated") (Json.str now))) }) := by
  simp [weekly_main, hfile, get_claude_updates, pyGetD, hresp, htruthy, apply_updates,
        hkind, hkt, hv, hinc, pySet, objSet, Bind.bind, Except.bind, pure, Except.pure]

/-- Witness for the amended C6: a fenced `minor` increment against a
`"1.4.9"` document. -/
theorem C6_amended_witness :
    weekly_main { file := some ("\x7b\"version\": \"1.4.9\"\x7d") }
        ("\x7b\"version_increment\": \"minor\"\x7d") ("NOW") =
      .ok (0, { file := some (jsonDumps (objSet (objSet
            (Json.obj [("version", Json.str ("1.4.9"))]) ("version") (Json.str ("1.5.0")))
            ("lastUpdated") (Json.str ("NOW")))) }) :=
  C6_amended_truthy_increment_writes_and_exits_0 _ _ _ ("1.4.9") ("1.5.0")
    [("version", Json.str ("1.4.9"))] [("version_increment", Json.str ("minor"))]
    (Json.str ("minor")) rfl rfl rfl rfl rfl rfl rfl

/-- C4: a confirmed apply with the empty payload `"{}"` and backups enabled
rewrites the file as the old document with only `lastUpdated` restamped —
the resulting document holds the new timestamp at `lastUpdated` and is
unchanged at every other key (version and all category contents included) —
and appends exactly one backup whose contents are byte-identical to the prior
on-disk text. -/
theorem C4_empty_payload_changes_only_lastUpdated
    (raw now backupTs : String) (bs : List String) (cf : List (String × Json))
    (hfile : jsonLoads raw = some (Json.obj cf)) :
    (roi_config_apply
        { updates_json := String.singleton braceOpen ++ String.singleton braceClose,
          user_confirmed := true, create_backup := true }
        { file := some raw, backups := bs } now backupTs).toOption.map (fun r => r.2) =
      some { file := some (jsonDumps (objSet (Json.obj cf) ("lastUpdated") (Json.str now))),
             backups := bs ++ [raw] } ∧
    jsonGet (objSet (Json.obj cf) ("lastUpdated") (Json.str now)) ("lastUpdated") =
      some (Json.str now) ∧
    (∀ k, k ≠ ("lastUpdated") →
      jsonGet (objSet (Json.obj cf) ("lastUpdated") (Json.str now)) k =
        jsonGet (Json.obj cf) k) := by
  refine ⟨?_, jsonGet_objSet_self _ _ _, fun k hk => jsonGet_objSet_ne _ _ _ _ hk⟩
  simp [roi_config_apply, roiConfigApplyBody,
        show jsonLoads (String.singleton braceOpen ++ String.singleton braceClose) =
          some (Json.obj []) from rfl,
        hfile, readConfig, applyTransform, applyVersionStep, applyCategoryUpdates,
        asObjItems, pyGetD, jsonLookupD, jsonLookup, Json.truthy, pySet, writeConfig,
        Except.toOption, Bind.bind, Except.bind, pure, Except.pure]

/-- Witness for C4 on a concrete one-field document. -/
theorem C4_empty_payload_changes_only_lastUpdated_witness :
    (roi_config_apply
        { updates_json := String.singleton braceOpen ++ String.singleton braceClose,
          user_confirmed := true, create_backup := true }
        { file := some ("\x7b\"version\": \"1.0.0\"\x7d"), backups := [] }
        ("NOW") ("TS")).toOption.map (fun r => r.2) =
      some { file := some (jsonDumps (objSet (Json.obj [("version", Json.str ("1.0.0"))])
               ("lastUpdated") (Json.str ("NOW")))),
             backups := [("\x7b\"version\": \"1.0.0\"\x7d" : String)] } ∧
    jsonGet (objSet (Json.obj [("version", Json.str ("1.0.0"))]) ("lastUpdated")
        (Json.str ("NOW"))) ("version") =
      jsonGet (Json.obj [("version", Json.str ("1.0.0"))]) ("version") :=
  ⟨(C4_empty_payload_changes_only_lastUpdated ("\x7b\"version\": \"1.0.0\"\x7d") ("NOW") ("TS")
      [] [("version", Json.str ("1.0.0"))] rfl).1,
   (C4_empty_payload_changes_only_lastUpdated ("\x7b\"version\": \"1.0.0\"\x7d") ("NOW") ("TS")
      [] [("version", Json.str ("1.0.0"))] rfl).2.2 ("version") (by decide)⟩

/-! ### Frame lemmas for the apply transformation (claim C10) -/

/-- A successful `pySet` at one key leaves every other key's binding alone. -/
theorem pySet_frame (j j' : Json) (key k : String) (v : Json) (hk : k ≠ key)
    (h : pySet j key v = .ok j') : jsonGet j' k = jsonGet j k := by
  cases j <;> simp [pySet] at h
  case obj fs =>
    subst h
    exact jsonGet_objSet_ne _ _ _ _ hk

/-- One property assignment only rewrites the `catKey` binding of the
document. -/
theorem applyPropStep_frame (catKey tag gpu k : String) (hk : k ≠ catKey)
    (st st' : Json × List String) (kv : String × Json)
    (h : applyPropStep catKey tag gpu st kv = .ok st') :
    jsonGet st'.1 k = jsonGet st.1 k := by
  unfold applyPropStep at h
  cases h1 : pyIndex st.1 catKey with
  | error e => simp [h1, Bind.bind, Except.bind] at h
  | ok catNow =>
    cases h2 : pyIndex catNow gpu with
    | error e => simp [h1, h2, Bind.bind, Except.bind] at h
    | ok inner =>
      cases h3 : pySet inner kv.1 kv.2 with
      | error e => simp [h1, h2, h3, Bind.bind, Except.bind] at h
      | ok newInner =>
        simp [h1, h2, h3, Bind.bind, Except.bind, pure, Except.pure] at h
        rw [← h]
        exact jsonGet_objSet_ne _ _ _ _ hk

/-- The property fold of one category entry only rewrites `catKey`. -/
theorem foldlM_applyPropStep_frame (catKey tag gpu k : String) (hk : k ≠ catKey) :
    ∀ (items : List (String × Json)) (st st' : Json × List String),
      items.foldlM (applyPropStep catKey tag gpu) st = .ok st' →
      jsonGet st'.1 k = jsonGet st.1 k
  | [], st, st', h => by
    simp [List.foldlM, pure, Except.pure] at h
    rw [← h]
  | kv :: rest, st, st', h => by
    rw [List.foldlM_cons] at h
    cases h1 : applyPropStep catKey tag gpu st kv with
    | error e => rw [h1] at h; simp [Bind.bind, Except.bind] at h
    | ok st1 =>
      rw [h1] at h
      simp only [Bind.bind, Except.bind] at h
      rw [foldlM_applyPropStep_frame catKey tag gpu k hk rest st1 st' h,
          applyPropStep_frame catKey tag gpu k hk st st1 kv h1]

/-- One category entry (applied or skipped) only rewrites `catKey`. -/
theorem applyCatEntry_frame (catKey tag k : String) (hk : k ≠ catKey)
    (st st' : Json × List String) (gpu : String) (data : Json)
    (h : applyCatEntry catKey tag st gpu data = .ok st') :
    jsonGet st'.1 k = jsonGet st.1 k := by
  unfold applyCatEntry at h
  cases h1 : pyGetD st.1 catKey (Json.obj []) with
  | error e => simp [h1, Bind.bind, Except.bind] at h
  | ok cat =>
    cases h2 : pyContains cat gpu with
    | error e => simp [h1, h2, Bind.bind, Except.bind] at h
    | ok present =>
      cases present with
      | false =>
        simp [h1, h2, Bind.bind, Except.bind, pure, Except.pure] at h
        rw [← h]
      | true =>
        cases h3 : asObjItems data with
        | error e => simp [h1, h2, h3, Bind.bind, Except.bind] at h
        | ok items =>
          simp only [h1, h2, h3, Bind.bind, Except.bind, if_true] at h
          exact foldlM_applyPropStep_frame catKey tag gpu k hk items st st' h

/-- The entry fold of a whole category loop only rewrites `catKey`. -/
theorem foldlM_applyCatEntry_frame (catKey tag k : String) (hk : k ≠ catKey) :
    ∀ (entries : List (String × Json)) (st st' : Json × List String),
      entries.foldlM (fun st2 kv => applyCatEntry catKey tag st2 kv.1 kv.2) st = .ok st' →
      jsonGet st'.1 k = jsonGet st.1 k
  | [], st, st', h => by
    simp [List.foldlM, pure, Except.pure] at h
    rw [← h]
  | kv :: rest, st, st', h => by
    rw [List.foldlM_cons] at h
    cases h1 : applyCatEntry catKey tag st kv.1 kv.2 with
    | error e => rw [h1] at h; simp [Bind.bind, Except.bind] at h
    | ok st1 =>
      rw [h1] at h
      simp only [Bind.bind, Except.bind] at h
      rw [foldlM_applyCatEntry_frame catKey tag k hk rest st1 st' h,
          applyCatEntry_frame catKey tag k hk st st1 kv.1 kv.2 h1]

/-- A whole category loop only rewrites `catKey`. -/
theorem applyCategoryUpdates_frame (catKey tag k : String) (hk : k ≠ catKey)
    (updatesMap : Json) (st st' : Json × List String)
    (h : applyCategoryUpdates catKey tag updatesMap st = .ok st') :
    jsonGet st'.1 k = jsonGet st.1 k := by
  unfold applyCategoryUpdates at h
  cases h1 : asObjItems updatesMap with
  | error e => simp [h1, Bind.bind, Except.bind] at h
  | ok items =>
    simp only [h1, Bind.bind, Except.bind] at h
    exact foldlM_applyCatEntry_frame catKey tag k hk items st st' h

/-- The version step only rewrites `version`. -/
theorem applyVersionStep_frame (updates config : Json) (k : String)
    (hk : k ≠ ("version")) (res : Json × List String)
    (h : applyVersionStep updates config = .ok res) :
    jsonGet res.1 k = jsonGet config k := by
  unfold applyVersionStep at h
  cases h1 : pyGetD config ("version") (Json.str ("1.0.0")) with
  | error e => simp [h1, Bind.bind, Except.bind] at h
  | ok oldV =>
    cases h2 : pyGetD updates ("version_increment") Json.null with
    | error e => simp [h1, h2, Bind.bind, Except.bind] at h
    | ok vi =>
      cases hvt : vi.truthy with
      | false =>
        simp [h1, h2, hvt, Bind.bind, Except.bind, pure, Except.pure] at h
        rw [← h]
      | true =>
        cases h3 : asStr oldV with
        | error e => simp [h1, h2, hvt, h3, Bind.bind, Except.bind] at h
        | ok ov =>
          cases h4 : gatewayBumpVersion ov vi with
          | error e => simp [h1, h2, hvt, h3, h4, Bind.bind, Except.bind] at h
          | ok nv =>
            cases h5 : pySet config ("version") (Json.str nv) with
            | error e => simp [h1, h2, hvt, h3, h4, h5, Bind.bind, Except.bind] at h
            | ok c =>
              simp [h1, h2, hvt, h3, h4, h5, Bind.bind, Except.bind, pure, Except.pure] at h
              rw [← h]
              exact pySet_frame config c ("version") k (Json.str nv) hk h5

/-- C10: whatever the payload, a successful confirmed apply transformation
can change the document only at `version`, `lastUpdated`, `gpuTypes` and
`modelArchitectures`: the document written back agrees with the document read
at every other key — in particular at `hardware` and `storageOptions`. -/
theorem C10_apply_never_touches_hardware_or_storage
    (updates config : Json) (now : String) (result : Json × List String)
    (h : applyTransform updates config now = .ok result) (k : String)
    (hk1 : k ≠ ("version")) (hk2 : k ≠ ("lastUpdated"))
    (hk3 : k ≠ ("gpuTypes")) (hk4 : k ≠ ("modelArchitectures")) :
    jsonGet result.1 k = jsonGet config k := by
  unfold applyTransform at h
  cases hv : applyVersionStep updates config with
  | error e => simp [hv, Bind.bind, Except.bind] at h
  | ok vres =>
    cases hl : pySet vres.1 ("lastUpdated") (Json.str now) with
    | error e => simp [hv, hl, Bind.bind, Except.bind] at h
    | ok c2 =>
      cases hg : pyGetD updates ("gpuTypes_updates") (Json.obj []) with
      | error e => simp [hv, hl, hg, Bind.bind, Except.bind] at h
      | ok gmap =>
        cases hc1 : applyCategoryUpdates ("gpuTypes") ("gpuTypes") gmap (c2, vres.2) with
        | error e => simp [hv, hl, hg, hc1, Bind.bind, Except.bind] at h
        | ok st3 =>
          cases hm : pyGetD updates ("modelArchitectures_updates") (Json.obj []) with
          | error e => simp [hv, hl, hg, hc1, hm, Bind.bind, Except.bind] at h
          | ok mmap =>
            cases hc2 : applyCategoryUpdates ("modelArchitectures") ("models") mmap st3 with
            | error e => simp [hv, hl, hg, hc1, hm, hc2, Bind.bind, Except.bind] at h
            | ok st4 =>
              simp [hv, hl, hg, hc1, hm, hc2, Bind.bind, Except.bind, pure, Except.pure] at h
              rw [← h]
              rw [applyCategoryUpdates_frame ("modelArchitectures") ("models") k hk4
                    mmap st3 st4 hc2,
                  applyCategoryUpdates_frame ("gpuTypes") ("gpuTypes") k hk3
                    gmap (c2, vres.2) st3 hc1]
              rw [show jsonGet (c2, vres.2).1 k = jsonGet c2 k from rfl,
                  pySet_frame vres.1 c2 ("lastUpdated") k (Json.str now) hk2 hl,
                  applyVersionStep_frame updates config k hk1 vres hv]

/-- Witness for C10 at `hardware` on a document holding a hardware entry. -/
theorem C10_apply_never_touches_hardware_or_storage_witness :
    applyTransform (Json.obj [])
        (Json.obj [("hardware", Json.obj [("dpu", Json.int 1)])]) ("NOW") =
      .ok (objSet (Json.obj [("hardware", Json.obj [("dpu", Json.int 1)])])
             ("lastUpdated") (Json.str ("NOW")), []) ∧
    jsonGet (objSet (Json.obj [("hardware", Json.obj [("dpu", Json.int 1)])])
        ("lastUpdated") (Json.str ("NOW"))) ("hardware") =
      jsonGet (Json.obj [("hardware", Json.obj [("dpu", Json.int 1)])]) ("hardware") :=
  ⟨rfl,
   C10_apply_never_touches_hardware_or_storage (Json.obj [])
     (Json.obj [("hardware", Json.obj [("dpu", Json.int 1)])]) ("NOW")
     (objSet (Json.obj [("hardware", Json.obj [("dpu", Json.int 1)])])
        ("lastUpdated") (Json.str ("NOW")), []) rfl ("hardware")
     (by decide) (by decide) (by decide) (by decide)⟩
